import Mathlib

/-!
# Verification of the supplement-information app (`src/app.py`)

A shallow embedding of the pure computational content of `app.py`:

* `parse_supplement_list` (app.py lines 11-22): turning a model response
  into a list of stripped, non-empty supplement names;
* `get_supplement_information` (lines 25-51): one API round trip, returning
  `[]` on any exception;
* `create_supplement_chart` (lines 54-98): percentage computation and the
  descending stable sort that produces the horizontal bar chart;
* the body of `main`'s button handler (lines 159-194): five queries,
  `collections.Counter` aggregation, chart-or-error rendering;
* the weight/height tab selection (lines 147-153).

Python `int`/float arithmetic is modelled over `ℚ` (the values involved are
exact decimals), Python's banker's rounding `round` as `pyRound`, Python
`str.strip` over the ASCII whitespace characters it strips, and Python
`list.split(",")` as a structural recursion with identical semantics
(empty pieces kept, `""` splitting to `[""]`).
-/

/-- The characters Python's `str.strip()` removes, restricted to ASCII:
space, tab, newline, carriage return, vertical tab, form feed. -/
def pyIsSpace (c : Char) : Bool :=
  c = ' ' || c = '\t' || c = '\n' || c = '\r' || c = '\x0b' || c = '\x0c'

/-- Python `str.strip()` on the character list: drop whitespace from both
ends. -/
def stripChars (l : List Char) : List Char :=
  List.rdropWhile pyIsSpace (l.dropWhile pyIsSpace)

/-- Python `s.strip()`. -/
def pyStrip (s : String) : String :=
  ⟨stripChars s.data⟩

/-- Python `s.split(",")` on the character list: split at every comma,
keeping empty pieces; the empty text yields `[[]]`. -/
def splitOnComma : List Char → List (List Char)
  | [] => [[]]
  | c :: rest =>
    let r := splitOnComma rest
    if c = ',' then [] :: r
    else
      match r with
      | [] => [[c]]
      | h :: t => (c :: h) :: t

/-- Python `text_content.split(",")`. -/
def pySplitComma (s : String) : List String :=
  (splitOnComma s.data).map (fun l => ⟨l⟩)

/-- app.py line 22: strip every comma-separated item and keep the non-empty
ones, in order. -/
def splitAndStrip (s : String) : List String :=
  ((pySplitComma s).map pyStrip).filter (fun x => x ≠ "")

/-- A single content block of an API response: either it has a `.text`
attribute, or it is an arbitrary object rendered through `str(...)`. -/
inductive Block where
  | textBlock (text : String)
  | otherBlock (s : String)
deriving DecidableEq

/-- The text `parse_supplement_list` reads off a block (app.py lines 13-16):
the `.text` attribute when present, otherwise `str(block)`. -/
def Block.textOf : Block → String
  | .textBlock t => t
  | .otherBlock s => s

/-- The possible runtime types of `response_content`: a Python `str`, a
Python `list` of blocks, or any other value (e.g. `None`, an `int`),
carrying its type name for the error message. -/
inductive Content where
  | str (s : String)
  | list (blocks : List Block)
  | other (typeName : String)
deriving DecidableEq

/-- app.py lines 11-22, `parse_supplement_list`: a non-empty list is read
through its first block, a string is used directly, and anything else
raises `ValueError`. -/
def parse_supplement_list (response_content : Content) : Except String (List String) :=
  match response_content with
  | Content.list (b :: _) => Except.ok (splitAndStrip (Block.textOf b))
  | Content.str s => Except.ok (splitAndStrip s)
  | Content.list [] => Except.error "Unexpected response type: list"
  | Content.other t => Except.error ("Unexpected response type: " ++ t)

/-- The text `parse_supplement_list` ends up splitting, in the successful
cases (`text_content` at app.py lines 14-18). -/
def underlyingText : Content → String
  | Content.list (b :: _) => Block.textOf b
  | Content.str s => s
  | Content.list [] => ""
  | Content.other _ => ""

/-- Python 3 `round(q)`: round half to even (banker's rounding). -/
def pyRound (q : ℚ) : ℤ :=
  let f := ⌊q⌋
  let r := q - f
  if r < 1 / 2 then f
  else if 1 / 2 < r then f + 1
  else if f % 2 = 0 then f else f + 1

/-- Python `round(q, 1)`: round to one decimal place, half to even. -/
def pyRound1 (q : ℚ) : ℚ :=
  (pyRound (q * 10) : ℚ) / 10

/-- The percentage charted for a count `c` out of `N` queries
(app.py lines 56-59): `round(count / total_queries * 100)`. -/
def pct (N : ℕ) (c : ℕ) : ℤ :=
  pyRound ((c : ℚ) / (N : ℚ) * 100)

/-- The observable content of the plotly figure built by
`create_supplement_chart` (app.py lines 67-96). -/
structure BarChart where
  xs : List ℤ
  ys : List String
  texts : List String
  orientationH : Bool
  xaxisRange : ℤ × ℤ
  height : ℕ
  yaxisReversed : Bool
deriving DecidableEq

/-- app.py lines 54-98, `create_supplement_chart`: compute the rounded
percentages, stable-sort the (supplement, percentage) pairs by percentage
in descending order (Python `sorted(..., key=lambda x: x[1], reverse=True)`),
and lay them out as horizontal bars labelled `f"{p}%"` on a fixed 0-100
x-axis.  On an empty map the Python code raises in `zip(*sorted_data)`;
`main` only calls it with a non-empty map (see the final theorems). -/
def create_supplement_chart (supplement_counts : List (String × ℕ))
    (total_queries : ℕ) : BarChart :=
  let supplements := supplement_counts.map Prod.fst
  let percentages := supplement_counts.map (fun p => pct total_queries p.2)
  let sorted_data := (supplements.zip percentages).mergeSort (fun a b => b.2 ≤ a.2)
  ⟨sorted_data.map Prod.snd,
   sorted_data.map Prod.fst,
   sorted_data.map (fun p => toString p.2 ++ "%"),
   true,
   (0, 100),
   400 + supplements.length * 20,
   true⟩

/-- Python `collections.Counter(l)` as an association list: each distinct
element, in order of first occurrence (`Counter` preserves insertion
order), paired with its multiplicity in `l`. -/
def counter (l : List String) : List (String × ℕ) :=
  l.reverse.dedup.reverse.map (fun s => (s, l.count s))

/-- app.py line 164: `num_queries = 5`. -/
def num_queries : ℕ := 5

/-- The prompt built from the user profile (app.py lines 26-34). -/
def promptFor (user_info : String) : String :=
  "\n    Given the following user information:\n    " ++ user_info ++
  "\n    \n    Provide a list of 5 supplements that have been studied in scientific literature for potential health benefits related to this person's profile. \n    Include only supplements with peer-reviewed research support.\n    Format your response as a comma-separated list of supplement names only.\n    Do not include any health claims or recommendations.\n    "

/-- app.py lines 25-51, `get_supplement_information`: one API call.  The
first component is the prompt handed to `client.messages.create`; the
second is the parsed list, with `[]` returned when the call itself errors
(`Except.error`) or when `parse_supplement_list` raises (both are caught
by the same `except` block). -/
def get_supplement_information (user_info : String)
    (resp : Except Unit Content) : String × List String :=
  (promptFor user_info,
   match resp with
   | Except.error _ => []
   | Except.ok c =>
     match parse_supplement_list c with
     | Except.error _ => []
     | Except.ok l => l)

/-- app.py lines 163-167: the concatenation of the five per-query
supplement lists, where `api i` is the outcome of the `i`-th API call. -/
def allSupplements (user_info : String) (api : ℕ → Except Unit Content) :
    List String :=
  ((List.range num_queries).map
    (fun i => (get_supplement_information user_info (api i)).2)).flatten

/-- The observable outcome of one press of the "Get Supplement Information"
button (app.py lines 159-194). -/
structure MainResult where
  sent : List String
  mentions : List String
  counts : List (String × ℕ)
  chart : Option BarChart
  errorShown : Bool
  debugLines : List String
deriving DecidableEq

/-- app.py lines 159-194, the button handler: run `num_queries` identical
queries, concatenate the parsed lists, and either build the chart from the
`Counter` of the mentions (non-empty case) or show the error message.
`debug` is `st.session_state.debug_mode`; it only adds diagnostic lines. -/
def pressButton (debug : Bool) (user_info : String)
    (api : ℕ → Except Unit Content) : MainResult :=
  let sent := (List.range num_queries).map
    (fun i => (get_supplement_information user_info (api i)).1)
  let all := allSupplements user_info api
  let debugLines :=
    if debug then
      (List.range num_queries).map
        (fun i => "Debug - API response: " ++
          toString (get_supplement_information user_info (api i)).2)
    else []
  if all = [] then
    ⟨sent, all, [], none, true, debugLines⟩
  else
    ⟨sent, all, counter all,
     some (create_supplement_chart (counter all) num_queries),
     false, debugLines⟩

/-- Conversion constant `0.45359237` kg per lb (app.py line 152). -/
def lbsToKg : ℚ := 45359237 / 100000000

/-- Conversion constant `30.48` cm per foot (app.py line 153). -/
def ftToCm : ℚ := 3048 / 100

/-- Conversion constant `2.54` cm per inch (app.py line 153). -/
def inToCm : ℚ := 254 / 100

/-- app.py lines 147-153: the (weight, height) pair put into the profile.
`tab1_selected` models `tab1.selected`, `tab1` being the Imperial tab.
When it holds, the code uses the Metric-tab values unchanged; otherwise it
converts the Imperial-tab values to kg and cm, rounding to one decimal. -/
def selectWeightHeight (tab1_selected : Bool)
    (weight_lbs height_ft height_in weight_kg height_cm : ℚ) : ℚ × ℚ :=
  if tab1_selected then (weight_kg, height_cm)
  else (pyRound1 (weight_lbs * lbsToKg),
        pyRound1 (height_ft * ftToCm + height_in * inToCm))

/-! ## Helper lemmas -/

/-- Evaluation rule for `pyRound` when the fractional part is below a half. -/
lemma pyRound_eq_floor (q : ℚ) (n : ℤ) (h1 : (n : ℚ) ≤ q)
    (h2 : q < (n : ℚ) + 1 / 2) : pyRound q = n := by
  have hf : ⌊q⌋ = n := Int.floor_eq_iff.mpr ⟨h1, by linarith⟩
  simp only [pyRound, hf]
  rw [if_pos (by linarith : q - (n : ℚ) < 1 / 2)]

/-- Evaluation rule for `pyRound` when the fractional part is above a half. -/
lemma pyRound_eq_ceil (q : ℚ) (n : ℤ) (h1 : (n : ℚ) - 1 / 2 < q)
    (h2 : q < (n : ℚ)) : pyRound q = n := by
  have hf : ⌊q⌋ = n - 1 := by
    apply Int.floor_eq_iff.mpr
    constructor
    · push_cast; linarith
    · push_cast; linarith
  simp only [pyRound, hf]
  rw [if_neg (by push_cast; linarith : ¬(q - ((n - 1 : ℤ) : ℚ) < 1 / 2))]
  rw [if_pos (by push_cast; linarith : (1 : ℚ) / 2 < q - ((n - 1 : ℤ) : ℚ))]
  omega

/-- `pyRound` is the identity on integers. -/
lemma pyRound_intCast (n : ℤ) : pyRound (n : ℚ) = n :=
  pyRound_eq_floor _ n le_rfl (by linarith)

/-- `pyRound` never goes below zero on a nonnegative argument. -/
lemma pyRound_nonneg (q : ℚ) (h : 0 ≤ q) : 0 ≤ pyRound q := by
  have h0 : 0 ≤ ⌊q⌋ := Int.le_floor.mpr (by exact_mod_cast h)
  simp only [pyRound]
  split_ifs <;> omega

/-- `pyRound` never overshoots an integer upper bound. -/
lemma pyRound_le (q : ℚ) (n : ℤ) (h : q ≤ (n : ℚ)) : pyRound q ≤ n := by
  have hfl : (⌊q⌋ : ℚ) ≤ q := Int.floor_le q
  have hfn : ⌊q⌋ ≤ n := by
    have := Int.floor_le_floor h
    simpa using this
  simp only [pyRound]
  split_ifs with h1 h2 h3
  · exact hfn
  · have hlt : (⌊q⌋ : ℚ) < (n : ℚ) := by linarith
    have : ⌊q⌋ < n := by exact_mod_cast hlt
    omega
  · exact hfn
  · have h4 : q - (⌊q⌋ : ℚ) = 1 / 2 := le_antisymm (not_lt.mp h2) (not_lt.mp h1)
    have hlt : (⌊q⌋ : ℚ) < (n : ℚ) := by linarith
    have : ⌊q⌋ < n := by exact_mod_cast hlt
    omega

/-- The first element of a stripped list is not whitespace, so a second
leading strip does nothing. -/
lemma dropWhile_stripChars (l : List Char) :
    List.dropWhile pyIsSpace (stripChars l) = stripChars l := by
  rw [List.dropWhile_eq_self_iff]
  intro hl
  have hpre : List.rdropWhile pyIsSpace (List.dropWhile pyIsSpace l) <+:
      List.dropWhile pyIsSpace l := List.rdropWhile_prefix _ _
  have hl' : 0 < (List.dropWhile pyIsSpace l).length :=
    lt_of_lt_of_le hl hpre.length_le
  have hget : (stripChars l).get ⟨0, hl⟩ =
      (List.dropWhile pyIsSpace l).get ⟨0, hl'⟩ := by
    simpa [stripChars, List.get_eq_getElem] using hpre.getElem hl
  rw [hget]
  exact List.dropWhile_get_zero_not _ _ hl'

/-- Stripping is idempotent. -/
lemma stripChars_idem (l : List Char) : stripChars (stripChars l) = stripChars l := by
  show List.rdropWhile pyIsSpace (List.dropWhile pyIsSpace (stripChars l)) = stripChars l
  rw [dropWhile_stripChars, stripChars, List.rdropWhile_idempotent]

/-- Python `strip` is idempotent: stripped strings carry no leading or
trailing whitespace. -/
lemma pyStrip_idem (s : String) : pyStrip (pyStrip s) = pyStrip s :=
  congrArg String.mk (stripChars_idem s.data)

/-- The keys of `counter l` are the distinct elements of `l` in first
occurrence order. -/
lemma counter_keys (l : List String) :
    (counter l).map Prod.fst = l.reverse.dedup.reverse := by
  rw [counter, List.map_map]
  exact List.map_id'' (fun x => rfl) _

/-- The keys of `counter l` are pairwise distinct. -/
lemma counter_keys_nodup (l : List String) : ((counter l).map Prod.fst).Nodup := by
  rw [counter_keys]
  exact List.nodup_reverse.mpr (List.nodup_dedup _)

/-- A string is a key of `counter l` exactly when it occurs in `l`. -/
lemma mem_counter_keys (n : String) (l : List String) :
    n ∈ (counter l).map Prod.fst ↔ n ∈ l := by
  rw [counter_keys]
  simp [List.mem_dedup]

/-- Every entry of `counter l` records the exact multiplicity of its key. -/
lemma counter_count (l : List String) :
    ∀ p ∈ counter l, p.2 = l.count p.1 := by
  intro p hp
  obtain ⟨s, _, rfl⟩ := List.mem_map.mp hp
  rfl

/-- `counter` of a non-empty list is non-empty. -/
lemma counter_ne_nil (l : List String) (h : l ≠ []) : counter l ≠ [] := by
  intro hc
  apply h
  have : (counter l).map Prod.fst = [] := by rw [hc]; rfl
  rw [counter_keys] at this
  simpa [List.dedup_eq_nil] using this

/-- The (supplement, percentage) pairs read back off the chart are exactly
the sorted pairs. -/
lemma chart_pairs (counts : List (String × ℕ)) (N : ℕ) :
    (create_supplement_chart counts N).ys.zip (create_supplement_chart counts N).xs =
      (counts.map (fun p => (p.1, pct N p.2))).mergeSort (fun a b => b.2 ≤ a.2) := by
  simp only [create_supplement_chart, List.zip_map']
  exact List.map_id'' (fun a => rfl) _

/-- Membership in the charted percentages, unfolded down to the counts. -/
lemma mem_chart_xs (counts : List (String × ℕ)) (N : ℕ) (v : ℤ) :
    v ∈ (create_supplement_chart counts N).xs ↔ ∃ p ∈ counts, v = pct N p.2 := by
  have h : (create_supplement_chart counts N).xs =
      ((counts.map (fun p => (p.1, pct N p.2))).mergeSort
        (fun a b => b.2 ≤ a.2)).map Prod.snd := by
    simp only [create_supplement_chart, List.zip_map']
  rw [h]
  constructor
  · intro hv
    obtain ⟨x, hx, rfl⟩ := List.mem_map.mp hv
    rw [List.mem_mergeSort] at hx
    obtain ⟨p, hp, rfl⟩ := List.mem_map.mp hx
    exact ⟨p, hp, rfl⟩
  · rintro ⟨p, hp, rfl⟩
    exact List.mem_map_of_mem _ (List.mem_mergeSort.mpr (List.mem_map_of_mem _ hp))

/-- Evaluation of the chart on a one-entry count map. -/
lemma create_singleton (s : String) (c N : ℕ) :
    create_supplement_chart [(s, c)] N =
      ⟨[pct N c], [s], [toString (pct N c) ++ "%"], true, (0, 100), 420, true⟩ := by
  simp [create_supplement_chart]

/-- Concrete percentage: 10 mentions over 5 queries chart as 200. -/
lemma pct_five_ten : pct 5 10 = 200 := by
  have h : ((10 : ℕ) : ℚ) / ((5 : ℕ) : ℚ) * 100 = ((200 : ℤ) : ℚ) := by norm_num
  rw [pct, h, pyRound_intCast]

/-- Concrete percentage: 1 mention over 5 queries charts as 20. -/
lemma pct_five_one : pct 5 1 = 20 := by
  have h : ((1 : ℕ) : ℚ) / ((5 : ℕ) : ℚ) * 100 = ((20 : ℤ) : ℚ) := by norm_num
  rw [pct, h, pyRound_intCast]

/-! ## The claims -/

/-- C1: for every non-empty count map and positive total query count `N`,
`create_supplement_chart` assigns each supplement the charted value
`round(count / N * 100)`: each (supplement, count) entry shows up among the
chart's (label, bar value) pairs with exactly that rounded percentage. -/
theorem charted_value_is_rounded_percentage
    (supplement_counts : List (String × ℕ)) (N : ℕ)
    (hne : supplement_counts ≠ []) (hN : 0 < N) :
    ∀ p ∈ supplement_counts,
      (p.1, pyRound ((p.2 : ℚ) / (N : ℚ) * 100)) ∈
        (create_supplement_chart supplement_counts N).ys.zip
          (create_supplement_chart supplement_counts N).xs := by
  intro p hp
  rw [chart_pairs, List.mem_mergeSort]
  exact List.mem_map_of_mem _ hp

/-- C1 witness: one supplement mentioned once over 5 queries appears in the
chart with value `round(1 / 5 * 100)`. -/
theorem charted_value_is_rounded_percentage_witness :
    ("A", pyRound (((1 : ℕ) : ℚ) / ((5 : ℕ) : ℚ) * 100)) ∈
      (create_supplement_chart [("A", 1)] 5).ys.zip
        (create_supplement_chart [("A", 1)] 5).xs :=
  charted_value_is_rounded_percentage [("A", 1)] 5 (by decide) (by decide)
    ("A", 1) (by decide)

/-- C4: for every non-empty count map, the chart's (label, value) pairs are
a permutation of the (supplement, percentage) pairs, the bar values are in
non-increasing order, the bars are horizontal, and each bar is labelled
with its percentage value. -/
theorem chart_bars_sorted_descending
    (supplement_counts : List (String × ℕ)) (N : ℕ)
    (hne : supplement_counts ≠ []) (hN : 0 < N) :
    ((create_supplement_chart supplement_counts N).ys.zip
        (create_supplement_chart supplement_counts N).xs).Perm
      (supplement_counts.map (fun p => (p.1, pct N p.2))) ∧
    List.Sorted (fun a b => b ≤ a) (create_supplement_chart supplement_counts N).xs ∧
    (create_supplement_chart supplement_counts N).orientationH = true ∧
    (create_supplement_chart supplement_counts N).texts =
      (create_supplement_chart supplement_counts N).xs.map
        (fun v => toString v ++ "%") := by
  refine ⟨?_, ?_, rfl, ?_⟩
  · rw [chart_pairs]
    exact List.mergeSort_perm _ _
  · have hx : (create_supplement_chart supplement_counts N).xs =
        ((supplement_counts.map (fun p => (p.1, pct N p.2))).mergeSort
          (fun a b => b.2 ≤ a.2)).map Prod.snd := by
      simp only [create_supplement_chart, List.zip_map']
    rw [hx]
    have hs := @List.sorted_mergeSort (String × ℤ)
        (fun a b => decide (b.2 ≤ a.2))
        (by intro a b c hab hbc; simp only [decide_eq_true_eq] at *; omega)
        (by intro a b; simp only [Bool.or_eq_true, decide_eq_true_eq]; omega)
        (supplement_counts.map (fun p => (p.1, pct N p.2)))
    rw [List.Sorted, List.pairwise_map]
    exact hs.imp (fun h => by simpa using h)
  · simp only [create_supplement_chart, List.map_map]
    rfl

/-- C4 witness: the singleton chart satisfies the sortedness claim. -/
theorem chart_bars_sorted_descending_witness :
    ((create_supplement_chart [("A", 1)] 5).ys.zip
        (create_supplement_chart [("A", 1)] 5).xs).Perm
      ([("A", 1)].map (fun p => (p.1, pct 5 p.2))) ∧
    List.Sorted (fun a b => b ≤ a) (create_supplement_chart [("A", 1)] 5).xs ∧
    (create_supplement_chart [("A", 1)] 5).orientationH = true ∧
    (create_supplement_chart [("A", 1)] 5).texts =
      (create_supplement_chart [("A", 1)] 5).xs.map (fun v => toString v ++ "%") :=
  chart_bars_sorted_descending [("A", 1)] 5 (by decide) (by decide)

/-- C5 (amended): every charted bar value is nonnegative, for all
aggregated count maps - including ones with counts exceeding the query
total - and each individual supplement whose count is at most the total
query count (in particular one never mentioned twice in a reply) charts
at most 100.  Without that per-supplement bound a bar can exceed 100 (see
the counterexample). -/
theorem chart_percentages_bounded
    (supplement_counts : List (String × ℕ)) (N : ℕ) (hN : 0 < N) :
    (∀ v ∈ (create_supplement_chart supplement_counts N).xs, 0 ≤ v) ∧
    (∀ p ∈ supplement_counts, p.2 ≤ N → pct N p.2 ≤ 100) := by
  constructor
  · intro v hv
    rw [mem_chart_xs] at hv
    obtain ⟨p, hp, rfl⟩ := hv
    exact pyRound_nonneg _ (by positivity)
  · intro p hp hc
    have hN' : (0 : ℚ) < (N : ℚ) := by exact_mod_cast hN
    have hq1 : (p.2 : ℚ) / (N : ℚ) * 100 ≤ ((100 : ℤ) : ℚ) := by
      have hcq : (p.2 : ℚ) ≤ (N : ℚ) := by exact_mod_cast hc
      rw [div_mul_eq_mul_div, div_le_iff₀ hN']
      push_cast
      nlinarith
    exact pyRound_le _ _ hq1

/-- C5 witness: on the mixed map where "A" has 1 mention and "B" has 7
mentions out of 5 queries, the over-counted bar for "B" is still
nonnegative and the compliant supplement "A" charts at most 100. -/
theorem chart_percentages_bounded_witness :
    pct 5 7 ∈ (create_supplement_chart [("A", 1), ("B", 7)] 5).xs ∧
      0 ≤ pct 5 7 ∧ pct 5 1 ≤ 100 := by
  have hmem : pct 5 7 ∈ (create_supplement_chart [("A", 1), ("B", 7)] 5).xs :=
    (mem_chart_xs _ _ _).mpr ⟨("B", 7), by decide, rfl⟩
  have h := chart_percentages_bounded [("A", 1), ("B", 7)] 5 (by decide)
  exact ⟨hmem, h.1 (pct 5 7) hmem, h.2 ("A", 1) (by decide) (by decide)⟩

/-- C5 counterexample: when every one of the 5 replies mentions "Zinc"
twice, the aggregated count is 10 and the bar is charted at 200, outside
the fixed 0-100 axis, refuting the claim that every charted percentage
lies between 0 and 100 for all possible model replies. -/
theorem chart_percentage_can_exceed_100 :
    (pressButton false "profile"
        (fun _ => Except.ok (Content.str "Zinc, Zinc"))).chart.map BarChart.xs =
      some [200] ∧ ¬((200 : ℤ) ≤ 100) := by
  constructor
  · have hne : ¬(allSupplements "profile"
        (fun _ => Except.ok (Content.str "Zinc, Zinc")) = []) := by decide
    have hc : counter (allSupplements "profile"
        (fun _ => Except.ok (Content.str "Zinc, Zinc"))) = [("Zinc", 10)] := by decide
    simp only [pressButton, if_neg hne]
    rw [hc, create_singleton]
    simp only [Option.map_some']
    have : pct num_queries 10 = 200 := pct_five_ten
    rw [this]
  · decide

/-- Concrete conversion: 154 lbs is 69.9 kg after rounding. -/
lemma lbs154_to_kg : pyRound1 (154 * lbsToKg) = (699 : ℚ) / 10 := by
  rw [pyRound1]
  have h : 154 * lbsToKg * 10 = (6985322498 : ℚ) / 10000000 := by
    rw [lbsToKg]; norm_num
  rw [h, pyRound_eq_ceil _ 699 (by norm_num) (by norm_num)]
  norm_num

/-- Concrete conversion: 5 ft 7 in is 170.2 cm after rounding. -/
lemma ft5in7_to_cm : pyRound1 (5 * ftToCm + 7 * inToCm) = (851 : ℚ) / 5 := by
  rw [pyRound1]
  have h : (5 * ftToCm + 7 * inToCm) * 10 = (17018 : ℚ) / 10 := by
    rw [ftToCm, inToCm]; norm_num
  rw [h, pyRound_eq_ceil _ 1702 (by norm_num) (by norm_num)]
  norm_num

/-- C6 (code bug): with the Imperial tab in use (`tab1.selected`), the
Imperial-tab entries 154 lbs / 5 ft 7 in, and the Metric-tab fields at
their defaults 70 kg / 170 cm, the code sends the unconverted Metric-tab
values (70, 170), whereas converting the Imperial entries - which the
claim and the code's own comment at line 147 require - yields
(69.9, 170.2).  The two branches of `if tab1.selected` are swapped. -/
theorem imperial_tab_uses_metric_values :
    selectWeightHeight true 154 5 7 70 170 = (70, 170) ∧
    (pyRound1 (154 * lbsToKg), pyRound1 (5 * ftToCm + 7 * inToCm)) =
      ((699 : ℚ) / 10, (851 : ℚ) / 5) ∧
    ((70 : ℚ), (170 : ℚ)) ≠ ((699 : ℚ) / 10, (851 : ℚ) / 5) := by
  refine ⟨rfl, ?_, ?_⟩
  · rw [lbs154_to_kg, ft5in7_to_cm]
  · intro h
    rw [Prod.mk.injEq] at h
    have h1 := h.1
    norm_num at h1

/-- C3: pressing the button sends the prompt built from the identical user
profile exactly 5 times (`num_queries = 5`), and that same 5 is the
denominator `total_queries` handed to `create_supplement_chart`. -/
theorem five_identical_queries (d : Bool) (u : String)
    (api : ℕ → Except Unit Content) :
    (pressButton d u api).sent = List.replicate 5 (promptFor u) ∧
    num_queries = 5 ∧
    (pressButton d u api).chart =
      (if allSupplements u api = [] then none
       else some (create_supplement_chart (counter (allSupplements u api)) 5)) := by
  refine ⟨?_, rfl, ?_⟩
  · by_cases h : allSupplements u api = [] <;>
      simp only [pressButton, h, if_true, if_false, if_pos, if_neg, not_false_iff] <;>
      rfl
  · by_cases h : allSupplements u api = [] <;> simp [pressButton, h, num_queries]

/-- C7: the result of a button press is a function of the form inputs and
the API responses alone; in particular the `debug_mode` session flag
changes none of the prompts sent, the aggregated counts, the chart, or the
error state - it only adds diagnostic output. -/
theorem debug_mode_does_not_change_result (d1 d2 : Bool) (u : String)
    (api : ℕ → Except Unit Content) :
    (pressButton d1 u api).sent = (pressButton d2 u api).sent ∧
    (pressButton d1 u api).mentions = (pressButton d2 u api).mentions ∧
    (pressButton d1 u api).counts = (pressButton d2 u api).counts ∧
    (pressButton d1 u api).chart = (pressButton d2 u api).chart ∧
    (pressButton d1 u api).errorShown = (pressButton d2 u api).errorShown := by
  by_cases h : allSupplements u api = [] <;>
    simp [pressButton, h]

/-- C2: the count recorded for a supplement name is exactly the number of
occurrences of that string in the concatenation of the per-query lists:
keys are pairwise distinct (no normalisation merges different spellings),
each entry carries the exact multiplicity, and the keys are precisely the
strings that occur. -/
theorem counts_are_exact_occurrences (u : String)
    (api : ℕ → Except Unit Content) :
    ((counter (allSupplements u api)).map Prod.fst).Nodup ∧
    (∀ p ∈ counter (allSupplements u api),
      p.2 = (allSupplements u api).count p.1) ∧
    (∀ n : String,
      n ∈ (counter (allSupplements u api)).map Prod.fst ↔
        n ∈ allSupplements u api) :=
  ⟨counter_keys_nodup _, counter_count _, fun n => mem_counter_keys n _⟩

/-- C2 witness: five replies "A" give the count 5, the number of
occurrences of "A" in the concatenated lists. -/
theorem counts_are_exact_occurrences_witness :
    (5 : ℕ) = (allSupplements "u" (fun _ => Except.ok (Content.str "A"))).count "A" :=
  (counts_are_exact_occurrences "u" (fun _ => Except.ok (Content.str "A"))).2.1
    ("A", 5) (by decide)

/-- C8: every element of a successfully parsed list is a non-empty string
with no leading or trailing whitespace (stripping it again is the
identity), and the list is a sublist of the stripped comma-separated items
of the underlying text, hence in their order. -/
theorem parse_output_clean (c : Content) (l : List String)
    (h : parse_supplement_list c = Except.ok l) :
    (∀ x ∈ l, x ≠ "" ∧ pyStrip x = x) ∧
    l.Sublist ((pySplitComma (underlyingText c)).map pyStrip) := by
  have hl : l = splitAndStrip (underlyingText c) := by
    cases c with
    | str s =>
      simp only [parse_supplement_list, underlyingText, Except.ok.injEq] at h
      exact h.symm
    | list bs =>
      cases bs with
      | nil => exact absurd h (by simp [parse_supplement_list])
      | cons b t =>
        simp only [parse_supplement_list, underlyingText, Except.ok.injEq] at h
        exact h.symm
    | other t => exact absurd h (by simp [parse_supplement_list])
  subst hl
  constructor
  · intro x hx
    simp only [splitAndStrip, List.mem_filter] at hx
    obtain ⟨hx1, hx2⟩ := hx
    refine ⟨by simpa using hx2, ?_⟩
    obtain ⟨y, _, rfl⟩ := List.mem_map.mp hx1
    exact pyStrip_idem y
  · exact List.filter_sublist _

/-- C8 witness: parsing the text "A, B" yields stripped non-empty items in
the order of the comma-separated pieces. -/
theorem parse_output_clean_witness :
    ("A" ≠ "" ∧ pyStrip "A" = "A") ∧
    List.Sublist ["A", "B"]
      ((pySplitComma (underlyingText (Content.str "A, B"))).map pyStrip) := by
  have h := parse_output_clean (Content.str "A, B") ["A", "B"] rfl
  exact ⟨h.1 "A" (by decide), h.2⟩

/-- C9: `parse_supplement_list` raises `ValueError` exactly on the values
that are neither a string nor a non-empty list (the empty list and every
non-string, non-list value such as `None`), and returns a list on all
other inputs. -/
theorem parse_raises_iff_invalid_type (c : Content) :
    ((∃ e, parse_supplement_list c = Except.error e) ↔
      (c = Content.list [] ∨ ∃ t, c = Content.other t)) ∧
    ((∃ l, parse_supplement_list c = Except.ok l) ↔
      ((∃ s, c = Content.str s) ∨ ∃ b bs, c = Content.list (b :: bs))) := by
  cases c with
  | str s => simp [parse_supplement_list]
  | list bs => cases bs <;> simp [parse_supplement_list]
  | other t => simp [parse_supplement_list]

/-- C10: an API-call failure or a parse failure makes
`get_supplement_information` return the empty list; the chart is rendered
if and only if at least one mention was collected, the error message is
shown otherwise, and a non-empty mention list yields a non-empty count
map, so `create_supplement_chart` is never invoked on an empty one. -/
theorem failures_yield_empty_and_chart_guard (c : Content) (d : Bool)
    (u : String) (api : ℕ → Except Unit Content) :
    (get_supplement_information u (Except.error ())).2 = [] ∧
    ((∃ e, parse_supplement_list c = Except.error e) →
      (get_supplement_information u (Except.ok c)).2 = []) ∧
    ((pressButton d u api).chart.isSome = true ↔ allSupplements u api ≠ []) ∧
    ((pressButton d u api).errorShown = true ↔ allSupplements u api = []) ∧
    (allSupplements u api ≠ [] → counter (allSupplements u api) ≠ []) := by
  refine ⟨rfl, ?_, ?_, ?_, counter_ne_nil _⟩
  · rintro ⟨e, he⟩
    simp [get_supplement_information, he]
  · by_cases h : allSupplements u api = [] <;> simp [pressButton, h]
  · by_cases h : allSupplements u api = [] <;> simp [pressButton, h]

/-- C10 witness: a `None` response content parses to an error and yields
the empty list, and when every call fails the error message is shown. -/
theorem failures_yield_empty_and_chart_guard_witness :
    (get_supplement_information "u" (Except.ok (Content.other "NoneType"))).2 = [] ∧
    (pressButton false "u" (fun _ => Except.error ())).errorShown = true := by
  have h := failures_yield_empty_and_chart_guard (Content.other "NoneType")
    false "u" (fun _ => Except.error ())
  exact ⟨h.2.1 ⟨_, rfl⟩, h.2.2.2.1.mpr (by decide)⟩
